import Mathlib

/-!
Shallow embedding of the Annotated-Gemma repository: the Gemma model
configuration registry (src/gemma/config.py) and the SigLIP vision model
(src/gemma/siglip_vision/siglip_vision_model.py), together with theorems
settling the specification claims about them.

Tensors are modelled as shape-carrying structures whose data is a total
function on natural-number indices; machine floating point is modelled by an
arbitrary field together with an explicit record of the transcendental scalar
operations (sqrt, exp, tanh, pi) that the source obtains from torch.
-/

namespace Gemma

/-! ## Configuration data model (src/gemma/config.py) -/

/-- The torch floating dtypes that the repository's dtype table can produce. -/
inductive TorchDtype where
  | float16
  | float32
  | bfloat16
deriving DecidableEq

/-- Attention kinds used in the per-layer schedule (config.py, class AttentionType). -/
inductive AttentionType where
  | GLOBAL
  | LOCAL_SLIDING
deriving DecidableEq

/-- Model generations (config.py, class Architecture). -/
inductive Architecture where
  | GEMMA_1
  | GEMMA_2
  | GEMMA_3
deriving DecidableEq

/-- The mapping from dtype strings to torch dtypes
(config.py, _STR_DTYPE_TO_TORCH_DTYPE together with dict.get(key, None)). -/
def strDtypeToTorchDtype (s : String) : Option TorchDtype :=
  if s = "float16" then some TorchDtype.float16
  else if s = "float" then some TorchDtype.float32
  else if s = "float32" then some TorchDtype.float32
  else if s = "bfloat16" then some TorchDtype.bfloat16
  else none

/-- Vision tower geometry (the fields read by siglip_vision_model.py and
described in the spec's VisionConfig data model). -/
structure SiglipVisionModelConfig where
  num_hidden_layers : Nat
  embedding_dim : Nat
  num_attention_heads : Nat
  head_dim : Nat
  intermediate_size : Nat
  input_channels : Nat
  image_size : Nat
  conv2d_patch_size : Nat
  layer_norm_eps : Rat
  embedding_use_bias : Bool
  encoding_sequence_length : Nat

/-- Modelled from the spec: src/gemma/siglip_vision/config.py (the function
`get_siglip_vision_model_config`) is not part of the excerpt; its values are
taken from the spec's canonical SigLIP geometry and the inline shape comments
in siglip_vision_model.py (3 input channels, 1152-dim embeddings, 16 heads of
width 72, intermediate size 4304, 27 layers, 896x896 images in 14x14 patches,
biased patch projection, 256-token encoding). -/
def get_siglip_vision_model_config : SiglipVisionModelConfig where
  num_hidden_layers := 27
  embedding_dim := 1152
  num_attention_heads := 16
  head_dim := 72
  intermediate_size := 4304
  input_channels := 3
  image_size := 896
  conv2d_patch_size := 14
  layer_norm_eps := 1/1000000
  embedding_use_bias := true
  encoding_sequence_length := 256

/-- Decoder-variant configuration (config.py, dataclass GemmaConfig), with the
dataclass defaults. Python floats are modelled as exact rationals and the
rope-wave-length dict as a total function on AttentionType. -/
structure GemmaConfig where
  architecture : Architecture := Architecture.GEMMA_1
  vocab_size : Nat := 256000
  max_position_embeddings : Nat := 8192
  num_hidden_layers : Nat := 28
  num_attention_heads : Nat := 16
  num_key_value_heads : Nat := 16
  hidden_size : Nat := 3072
  intermediate_size : Nat := 24576
  head_dim : Nat := 256
  rms_norm_eps : Rat := 1/1000000
  dtype : String := "bfloat16"
  quant : Bool := false
  tokenizer : Option String := some "tokenizer/tokenizer.model"
  attn_types : Option (List AttentionType) := none
  sliding_window_size : Option Nat := none
  final_logit_softcapping : Option Rat := none
  attn_logit_softcapping : Option Rat := none
  query_pre_attn_scalar : Option Nat := none
  use_pre_ffw_norm : Bool := false
  use_post_ffw_norm : Bool := false
  rope_wave_length : Option (AttentionType → Nat) := none
  use_qk_norm : Bool := false
  vision_config : Option SiglipVisionModelConfig := none
  rope_scaling_factor : Option Nat := none

/-- GemmaConfig.get_dtype (config.py): dictionary lookup with default None. -/
def GemmaConfig.get_dtype (c : GemmaConfig) : Option TorchDtype :=
  strDtypeToTorchDtype c.dtype

def get_config_for_7b (dtype : String) : GemmaConfig :=
  { dtype := dtype }

def get_config_for_2b (dtype : String) : GemmaConfig :=
  { dtype := dtype
    num_hidden_layers := 18
    num_attention_heads := 8
    num_key_value_heads := 1
    hidden_size := 2048
    intermediate_size := 16384 }

def get_config_for_2b_v2 (dtype : String) : GemmaConfig :=
  { dtype := dtype
    architecture := Architecture.GEMMA_2
    num_hidden_layers := 26
    num_attention_heads := 8
    num_key_value_heads := 4
    hidden_size := 2304
    intermediate_size := 9216
    use_pre_ffw_norm := true
    use_post_ffw_norm := true
    final_logit_softcapping := some 30
    attn_logit_softcapping := some 50
    head_dim := 256
    attn_types :=
      some (List.flatten (List.replicate 13
        [AttentionType.LOCAL_SLIDING, AttentionType.GLOBAL]))
    sliding_window_size := some 4096 }

def get_config_for_9b (dtype : String) : GemmaConfig :=
  { dtype := dtype
    architecture := Architecture.GEMMA_2
    num_hidden_layers := 42
    num_attention_heads := 16
    num_key_value_heads := 8
    hidden_size := 3584
    intermediate_size := 14336
    use_pre_ffw_norm := true
    use_post_ffw_norm := true
    final_logit_softcapping := some 30
    attn_logit_softcapping := some 50
    head_dim := 256
    attn_types :=
      some (List.flatten (List.replicate 21
        [AttentionType.LOCAL_SLIDING, AttentionType.GLOBAL]))
    sliding_window_size := some 4096 }

def get_config_for_27b (dtype : String) : GemmaConfig :=
  { dtype := dtype
    architecture := Architecture.GEMMA_2
    num_hidden_layers := 46
    num_attention_heads := 32
    num_key_value_heads := 16
    hidden_size := 4608
    intermediate_size := 36864
    use_pre_ffw_norm := true
    use_post_ffw_norm := true
    final_logit_softcapping := some 30
    attn_logit_softcapping := some 50
    head_dim := 128
    attn_types :=
      some (List.flatten (List.replicate 23
        [AttentionType.LOCAL_SLIDING, AttentionType.GLOBAL]))
    sliding_window_size := some 4096
    query_pre_attn_scalar := some 144 }

def get_config_for_1b (dtype : String) : GemmaConfig :=
  { dtype := dtype
    architecture := Architecture.GEMMA_3
    num_hidden_layers := 26
    num_attention_heads := 4
    num_key_value_heads := 1
    hidden_size := 1152
    intermediate_size := 6912
    use_pre_ffw_norm := true
    use_post_ffw_norm := true
    head_dim := 256
    attn_types :=
      some [AttentionType.LOCAL_SLIDING, AttentionType.LOCAL_SLIDING,
        AttentionType.LOCAL_SLIDING, AttentionType.LOCAL_SLIDING,
        AttentionType.LOCAL_SLIDING, AttentionType.GLOBAL]
    sliding_window_size := some 512
    rope_wave_length :=
      some (fun t => match t with
        | AttentionType.LOCAL_SLIDING => 10000
        | AttentionType.GLOBAL => 1000000)
    vocab_size := 262144
    max_position_embeddings := 32768
    tokenizer := some "tokenizer/gemma3_cleaned_262144_v2.spiece.model"
    use_qk_norm := true
    vision_config := none }

def get_config_for_4b (dtype : String) : GemmaConfig :=
  { dtype := dtype
    architecture := Architecture.GEMMA_3
    num_hidden_layers := 34
    num_attention_heads := 8
    num_key_value_heads := 4
    hidden_size := 2560
    intermediate_size := 10240
    use_pre_ffw_norm := true
    use_post_ffw_norm := true
    head_dim := 256
    attn_types :=
      some [AttentionType.LOCAL_SLIDING, AttentionType.LOCAL_SLIDING,
        AttentionType.LOCAL_SLIDING, AttentionType.LOCAL_SLIDING,
        AttentionType.LOCAL_SLIDING, AttentionType.GLOBAL]
    sliding_window_size := some 1024
    rope_wave_length :=
      some (fun t => match t with
        | AttentionType.LOCAL_SLIDING => 10000
        | AttentionType.GLOBAL => 1000000)
    vocab_size := 262144
    tokenizer := some "tokenizer/gemma3_cleaned_262144_v2.spiece.model"
    use_qk_norm := true
    vision_config := some get_siglip_vision_model_config
    rope_scaling_factor := some 8 }

def get_config_for_12b (dtype : String) : GemmaConfig :=
  { dtype := dtype
    architecture := Architecture.GEMMA_3
    num_hidden_layers := 48
    num_attention_heads := 16
    num_key_value_heads := 8
    hidden_size := 3840
    intermediate_size := 3840 * 8 / 2
    use_pre_ffw_norm := true
    use_post_ffw_norm := true
    head_dim := 256
    attn_types :=
      some [AttentionType.LOCAL_SLIDING, AttentionType.LOCAL_SLIDING,
        AttentionType.LOCAL_SLIDING, AttentionType.LOCAL_SLIDING,
        AttentionType.LOCAL_SLIDING, AttentionType.GLOBAL]
    sliding_window_size := some 1024
    rope_wave_length :=
      some (fun t => match t with
        | AttentionType.LOCAL_SLIDING => 10000
        | AttentionType.GLOBAL => 1000000)
    vocab_size := 262144
    max_position_embeddings := 131072
    tokenizer := some "tokenizer/gemma3_cleaned_262144_v2.spiece.model"
    use_qk_norm := true
    vision_config := some get_siglip_vision_model_config
    rope_scaling_factor := some 8 }

def get_config_for_27b_v3 (dtype : String) : GemmaConfig :=
  { dtype := dtype
    architecture := Architecture.GEMMA_3
    num_hidden_layers := 62
    num_attention_heads := 32
    num_key_value_heads := 16
    hidden_size := 5376
    intermediate_size := 5376 * 8 / 2
    use_pre_ffw_norm := true
    use_post_ffw_norm := true
    head_dim := 128
    query_pre_attn_scalar := some (5376 / 32)
    attn_types :=
      some [AttentionType.LOCAL_SLIDING, AttentionType.LOCAL_SLIDING,
        AttentionType.LOCAL_SLIDING, AttentionType.LOCAL_SLIDING,
        AttentionType.LOCAL_SLIDING, AttentionType.GLOBAL]
    sliding_window_size := some 1024
    rope_wave_length :=
      some (fun t => match t with
        | AttentionType.LOCAL_SLIDING => 10000
        | AttentionType.GLOBAL => 1000000)
    vocab_size := 262144
    max_position_embeddings := 131072
    tokenizer := some "tokenizer/gemma3_cleaned_262144_v2.spiece.model"
    use_qk_norm := true
    vision_config := some get_siglip_vision_model_config
    rope_scaling_factor := some 8 }

/-- The constant tail of the invalid-variant error message
(config.py, get_model_config, the ValueError f-string after the variant name;
the stray double comma and the missing comma between "9b" and "12b" are in
the source). -/
def invalidVariantMessageTail : String :=
  ". Supported variants are \"1b\", \"2b\", \"2b-v2\", \"4b\",, \"7b\", \"9b\" \"12b\", \"27b\", and \"27b_v3\"."

/-- get_model_config (config.py): dispatch on the variant name; a Python
ValueError is modelled as Except.error carrying the message string. The
source's default dtype is 'bfloat16'. -/
def get_model_config (variant : String) (dtype : String) :
    Except String GemmaConfig :=
  if variant = "7b" then Except.ok (get_config_for_7b dtype)
  else if variant = "2b" then Except.ok (get_config_for_2b dtype)
  else if variant = "2b-v2" then Except.ok (get_config_for_2b_v2 dtype)
  else if variant = "9b" then Except.ok (get_config_for_9b dtype)
  else if variant = "27b" then Except.ok (get_config_for_27b dtype)
  else if variant = "1b" then Except.ok (get_config_for_1b dtype)
  else if variant = "4b" then Except.ok (get_config_for_4b dtype)
  else if variant = "12b" then Except.ok (get_config_for_12b dtype)
  else if variant = "27b_v3" then Except.ok (get_config_for_27b_v3 dtype)
  else Except.error ("Invalid variant " ++ variant ++ invalidVariantMessageTail)

/-- The nine registered variant names, in the spec's enumeration order. -/
def validVariants : List String :=
  ["1b", "2b", "2b-v2", "4b", "7b", "9b", "12b", "27b", "27b_v3"]

/-- One string occurs inside another (with an explicit decomposition). -/
def substringOf (sub s : String) : Prop :=
  ∃ pre post, s = pre ++ sub ++ post

theorem string_append_assoc (a b c : String) :
    a ++ b ++ c = a ++ (b ++ c) := by
  cases a with
  | mk la =>
    cases b with
    | mk lb =>
      cases c with
      | mk lc =>
        show String.mk ((la ++ lb) ++ lc) = String.mk (la ++ (lb ++ lc))
        rw [List.append_assoc]

theorem substringOf_append_left (a : String) {sub t : String}
    (h : substringOf sub t) : substringOf sub (a ++ t) := by
  obtain ⟨pre, post, hpre⟩ := h
  exact ⟨a ++ pre, post, by
    rw [hpre]; simp only [string_append_assoc]⟩

/-! ## Tensor model (src/gemma/siglip_vision/siglip_vision_model.py)

A rank-3 torch tensor (batch, seq, channels) is a shape triple plus a total
data function on natural indices; entries outside the shape are irrelevant
junk that no in-range computation reads. Rank-4 pixel tensors are analogous. -/

structure Tensor3 (α : Type) where
  batch : Nat
  seq : Nat
  chan : Nat
  data : Nat → Nat → Nat → α

structure Tensor4 (α : Type) where
  batch : Nat
  chan : Nat
  height : Nat
  width : Nat
  data : Nat → Nat → Nat → Nat → α

/-- Python exceptions that the vision forward pass can surface: ValueError is
raised by the repository's own perfect-square check, RuntimeError by the torch
backend (pooling with a non-positive output size). -/
inductive TorchError where
  | valueError (msg : String)
  | runtimeError (msg : String)
deriving DecidableEq

/-- The transcendental scalar operations the source obtains from torch
(float sqrt, exp inside softmax, tanh, and the constant pi), abstracted so the
embedding stays executable over any field. -/
structure ScalarOps (α : Type) where
  sqrt : α → α
  exp : α → α
  tanh : α → α
  pi : α

variable {α : Type}

/-- Elementwise tensor addition (torch `x + y` on same-shaped operands); the
result carries the left operand's shape. -/
def tAdd [Add α] (x y : Tensor3 α) : Tensor3 α :=
  ⟨x.batch, x.seq, x.chan, fun b s c => x.data b s c + y.data b s c⟩

/-- torch.nn.Linear: out = bias + weight · in, acting on the last axis. -/
structure Linear (α : Type) where
  in_features : Nat
  out_features : Nat
  weight : Nat → Nat → α
  bias : Nat → α

def Linear.forward [Field α] (l : Linear α) (x : Tensor3 α) : Tensor3 α :=
  ⟨x.batch, x.seq, l.out_features, fun b s o =>
    l.bias o + ∑ i ∈ Finset.range l.in_features, l.weight o i * x.data b s i⟩

/-! ### AveragePool2D -/

/-- AveragePool2D module (holds only the config, which its forward never
reads: the 4x4 kernel and stride are hard-coded in the source). -/
structure AveragePool2D where
  config : SiglipVisionModelConfig

/-- The ValueError message of AveragePool2D.forward for a non-square sequence
length (siglip_vision_model.py, lines 33-36). -/
def invalidShapeMessage (seqLen : Nat) : String :=
  "Sequence length " ++ toString seqLen ++
    " is not a perfect square. Cannot reshape to a square image."

/-- AveragePool2D.forward (siglip_vision_model.py, lines 29-43).

`width = int(seq_len ** 0.5)` is the integer square root. If
`width * width != seq_len` the source raises ValueError. The sequence is then
viewed as a (width x width) grid with x[b, r*width + c, ch] at row r, column
c, and `F.avg_pool2d(kernel_size=4, stride=4)` averages disjoint 4x4 blocks.
The torch backend computes the pooled side as (width - 4)/4 + 1 = width/4 and
raises RuntimeError when that is not positive (width < 4); trailing rows and
columns beyond 4*(width/4) are dropped. The pooled grid is flattened back to
a sequence. -/
def AveragePool2D.forward [Field α] (_m : AveragePool2D) (x : Tensor3 α) :
    Except TorchError (Tensor3 α) :=
  let width := Nat.sqrt x.seq
  if width * width ≠ x.seq then
    Except.error (TorchError.valueError (invalidShapeMessage x.seq))
  else if width < 4 then
    Except.error (TorchError.runtimeError "Output size is too small")
  else
    let outW := width / 4
    Except.ok ⟨x.batch, outW * outW, x.chan, fun b p ch =>
      (∑ di ∈ Finset.range 4, ∑ dj ∈ Finset.range 4,
        x.data b ((4 * (p / outW) + di) * width + (4 * (p % outW) + dj)) ch)
        / 16⟩

/-! ### SiglipAttention -/

/-- SiglipAttention module state (dim, num_heads, head_dim and the four
projections created in __init__). -/
structure SiglipAttention (α : Type) where
  dim : Nat
  num_heads : Nat
  head_dim : Nat
  k_proj : Linear α
  q_proj : Linear α
  v_proj : Linear α
  o_proj : Linear α

/-- SiglipAttention.__init__: the key/query/value projections map
dim → num_heads*head_dim and the output projection maps back. -/
def SiglipAttention.init (dim num_heads head_dim : Nat)
    (kw : Nat → Nat → α) (kb : Nat → α) (qw : Nat → Nat → α) (qb : Nat → α)
    (vw : Nat → Nat → α) (vb : Nat → α) (ow : Nat → Nat → α) (ob : Nat → α) :
    SiglipAttention α :=
  ⟨dim, num_heads, head_dim,
    ⟨dim, num_heads * head_dim, kw, kb⟩,
    ⟨dim, num_heads * head_dim, qw, qb⟩,
    ⟨dim, num_heads * head_dim, vw, vb⟩,
    ⟨num_heads * head_dim, dim, ow, ob⟩⟩

/-- Attention scores (siglip_vision_model.py line 77): per batch, head, query
position and key position, the scaled dot product Q·K^T / sqrt(head_dim),
where the per-head views read slice h*head_dim+d of the projections. -/
def SiglipAttention.scores [Field α] (m : SiglipAttention α)
    (ops : ScalarOps α) (x : Tensor3 α) : Nat → Nat → Nat → Nat → α :=
  fun b h qp kp =>
    (∑ d ∈ Finset.range m.head_dim,
      (m.q_proj.forward x).data b qp (h * m.head_dim + d) *
        (m.k_proj.forward x).data b kp (h * m.head_dim + d))
      / ops.sqrt (m.head_dim : α)

/-- Attention weights (siglip_vision_model.py line 78): softmax of the scores
over the key axis, whose extent is the sequence length of the input. -/
def SiglipAttention.attn_weights [Field α] (m : SiglipAttention α)
    (ops : ScalarOps α) (x : Tensor3 α) : Nat → Nat → Nat → Nat → α :=
  fun b h qp kp =>
    ops.exp (m.scores ops x b h qp kp) /
      ∑ j ∈ Finset.range x.seq, ops.exp (m.scores ops x b h qp j)

/-- SiglipAttention.forward (siglip_vision_model.py, lines 63-90): project to
per-head Q/K/V, softmax-weight V by the attention weights, re-concatenate the
heads (position u holds head u/head_dim, lane u%head_dim) and apply the
output projection. -/
def SiglipAttention.forward [Field α] (m : SiglipAttention α)
    (ops : ScalarOps α) (x : Tensor3 α) : Tensor3 α :=
  let attn_output : Tensor3 α :=
    ⟨x.batch, x.seq, m.num_heads * m.head_dim, fun b s u =>
      ∑ kp ∈ Finset.range x.seq,
        m.attn_weights ops x b (u / m.head_dim) s kp *
          (m.v_proj.forward x).data b kp
            ((u / m.head_dim) * m.head_dim + u % m.head_dim)⟩
  m.o_proj.forward attn_output

/-! ### SiglipMLP -/

structure SiglipMLP (α : Type) where
  hidden_size : Nat
  intermediate_size : Nat
  fc1 : Linear α
  fc2 : Linear α

/-- SiglipMLP.__init__: fc1 expands hidden_size → intermediate_size and fc2
contracts back. -/
def SiglipMLP.init (hidden_size intermediate_size : Nat)
    (w1 : Nat → Nat → α) (b1 : Nat → α) (w2 : Nat → Nat → α) (b2 : Nat → α) :
    SiglipMLP α :=
  ⟨hidden_size, intermediate_size,
    ⟨hidden_size, intermediate_size, w1, b1⟩,
    ⟨intermediate_size, hidden_size, w2, b2⟩⟩

/-- SiglipMLP.gelu_tanh (siglip_vision_model.py, lines 109-121): the
tanh-approximate GELU 0.5·x·(1 + tanh(sqrt(2/pi)·(x + 0.044715·x³))). -/
def SiglipMLP.gelu_tanh [Field α] (_m : SiglipMLP α) (ops : ScalarOps α)
    (x : α) : α :=
  (1 / 2) * x *
    (1 + ops.tanh (ops.sqrt (2 / ops.pi) * (x + (44715 / 1000000) * x ^ 3)))

/-- SiglipMLP.forward: fc1, elementwise gelu_tanh, fc2. -/
def SiglipMLP.forward [Field α] (m : SiglipMLP α) (ops : ScalarOps α)
    (x : Tensor3 α) : Tensor3 α :=
  let x1 := m.fc1.forward x
  let x2 : Tensor3 α :=
    ⟨x1.batch, x1.seq, x1.chan, fun b s c => m.gelu_tanh ops (x1.data b s c)⟩
  m.fc2.forward x2

/-! ### LayerNorm -/

/-- torch.nn.LayerNorm over the last axis: normalize by mean and (biased)
variance of the `dim` channel entries, then scale and shift. -/
structure LayerNorm (α : Type) where
  dim : Nat
  eps : Rat
  weight : Nat → α
  bias : Nat → α

def LayerNorm.forward [Field α] (ln : LayerNorm α) (ops : ScalarOps α)
    (x : Tensor3 α) : Tensor3 α :=
  ⟨x.batch, x.seq, x.chan, fun b s c =>
    let mean := (∑ i ∈ Finset.range ln.dim, x.data b s i) / (ln.dim : α)
    let variance :=
      (∑ i ∈ Finset.range ln.dim, (x.data b s i - mean) ^ 2) / (ln.dim : α)
    (x.data b s c - mean) / ops.sqrt (variance + (ln.eps : α)) * ln.weight c
      + ln.bias c⟩

/-! ### SiglipEncoderBlock -/

structure SiglipEncoderBlock (α : Type) where
  self_attn : SiglipAttention α
  layer_norm1 : LayerNorm α
  mlp : SiglipMLP α
  layer_norm2 : LayerNorm α

/-- Raw parameters of one encoder block, as created by
SiglipEncoderBlock.__init__. -/
structure SiglipEncoderBlockWeights (α : Type) where
  kw : Nat → Nat → α
  kb : Nat → α
  qw : Nat → Nat → α
  qb : Nat → α
  vw : Nat → Nat → α
  vb : Nat → α
  ow : Nat → Nat → α
  ob : Nat → α
  ln1w : Nat → α
  ln1b : Nat → α
  fc1w : Nat → Nat → α
  fc1b : Nat → α
  fc2w : Nat → Nat → α
  fc2b : Nat → α
  ln2w : Nat → α
  ln2b : Nat → α

/-- SiglipEncoderBlock.__init__ (siglip_vision_model.py, lines 133-142):
attention over embedding_dim with the config's heads, two layer norms of
width embedding_dim with the config's epsilon, and an MLP
embedding_dim → intermediate_size → embedding_dim. -/
def SiglipEncoderBlock.init (config : SiglipVisionModelConfig)
    (w : SiglipEncoderBlockWeights α) : SiglipEncoderBlock α :=
  ⟨SiglipAttention.init config.embedding_dim config.num_attention_heads
      config.head_dim w.kw w.kb w.qw w.qb w.vw w.vb w.ow w.ob,
    ⟨config.embedding_dim, config.layer_norm_eps, w.ln1w, w.ln1b⟩,
    SiglipMLP.init config.embedding_dim config.intermediate_size
      w.fc1w w.fc1b w.fc2w w.fc2b,
    ⟨config.embedding_dim, config.layer_norm_eps, w.ln2w, w.ln2b⟩⟩

/-- SiglipEncoderBlock.forward (siglip_vision_model.py, lines 144-157),
statement for statement: save the residual, normalize, attend, add the
residual; save the residual, normalize, MLP, add the residual. -/
def SiglipEncoderBlock.forward [Field α] (m : SiglipEncoderBlock α)
    (ops : ScalarOps α) (x : Tensor3 α) : Tensor3 α :=
  let residual := x
  let x1 := m.layer_norm1.forward ops x
  let x2 := m.self_attn.forward ops x1
  let x3 := tAdd x2 residual
  let residual2 := x3
  let x4 := m.layer_norm2.forward ops x3
  let x5 := m.mlp.forward ops x4
  tAdd x5 residual2

/-- Modelled from the spec's words (section 4.6), for comparison with the
source translation: x' = x + SelfAttentionBlock(LayerNorm1(x)) followed by
x'' = x' + MLP(LayerNorm2(x')). -/
def specEncoderBlockForward [Field α] (m : SiglipEncoderBlock α)
    (ops : ScalarOps α) (x : Tensor3 α) : Tensor3 α :=
  let x' := tAdd x (m.self_attn.forward ops (m.layer_norm1.forward ops x))
  tAdd x' (m.mlp.forward ops (m.layer_norm2.forward ops x'))

/-! ### SiglipVisionModel -/

structure SiglipVisionModel (α : Type) where
  config : SiglipVisionModelConfig
  patch_weight : Nat → Nat → Nat → Nat → α
  patch_bias : Nat → α
  position_embedding : Nat → Nat → α
  encoder_blocks : List (SiglipEncoderBlock α)
  final_norm : LayerNorm α

/-- Raw parameters of the vision tower, as created by
SiglipVisionModel.__init__. -/
structure SiglipVisionModelWeights (α : Type) where
  patch_weight : Nat → Nat → Nat → Nat → α
  patch_bias : Nat → α
  position_embedding : Nat → Nat → α
  blocks : List (SiglipEncoderBlockWeights α)
  final_norm_weight : Nat → α
  final_norm_bias : Nat → α

/-- SiglipVisionModel.__init__ (siglip_vision_model.py, lines 164-194):
patch conv, position table, one encoder block per layer, final layer norm of
width embedding_dim with the config's epsilon. -/
def SiglipVisionModel.init (config : SiglipVisionModelConfig)
    (w : SiglipVisionModelWeights α) : SiglipVisionModel α :=
  ⟨config, w.patch_weight, w.patch_bias, w.position_embedding,
    w.blocks.map (SiglipEncoderBlock.init config),
    ⟨config.embedding_dim, config.layer_norm_eps,
      w.final_norm_weight, w.final_norm_bias⟩⟩

/-- num_patches = (image_size // conv2d_patch_size) ** 2
(siglip_vision_model.py, line 176). -/
def SiglipVisionModel.num_patches (m : SiglipVisionModel α) : Nat :=
  (m.config.image_size / m.config.conv2d_patch_size) ^ 2

/-- Steps 1-2 of SiglipVisionModel.forward: the strided patch convolution
(kernel = stride = conv2d_patch_size, zero padding, optional bias) followed
by flatten(2).transpose(1,2). Output position p of the
(image_size/patch)-wide grid holds the projection of the disjoint image tile
at row p/side, column p%side. -/
def SiglipVisionModel.patch_embed [Field α] (m : SiglipVisionModel α)
    (pixel_values : Tensor4 α) : Tensor3 α :=
  let p := m.config.conv2d_patch_size
  let side := m.config.image_size / p
  ⟨pixel_values.batch, side * side, m.config.embedding_dim, fun b pos e =>
    (if m.config.embedding_use_bias then m.patch_bias e else 0) +
      ∑ c ∈ Finset.range m.config.input_channels,
        ∑ di ∈ Finset.range p, ∑ dj ∈ Finset.range p,
          m.patch_weight e c di dj *
            pixel_values.data b c ((pos / side) * p + di) ((pos % side) * p + dj)⟩

/-- The broadcast position-embedding tensor
self.position_embedding(position_ids) of shape (1, num_positions,
embedding_dim); position_ids is arange(num_positions). -/
def SiglipVisionModel.position_tensor (m : SiglipVisionModel α) : Tensor3 α :=
  ⟨1, m.num_patches, m.config.embedding_dim, fun _ pos e =>
    m.position_embedding pos e⟩

/-- SiglipVisionModel.forward (siglip_vision_model.py, lines 197-232):
patch embedding, add the broadcast position embeddings, run every encoder
block in order, final layer norm, average pooling. -/
def SiglipVisionModel.forward [Field α] (m : SiglipVisionModel α)
    (ops : ScalarOps α) (pixel_values : Tensor4 α) :
    Except TorchError (Tensor3 α) :=
  let x1 := m.patch_embed pixel_values
  let x2 := tAdd x1 m.position_tensor
  let x3 := m.encoder_blocks.foldl (fun acc blk => blk.forward ops acc) x2
  let x4 := m.final_norm.forward ops x3
  (AveragePool2D.mk m.config).forward x4

/-- The forward pass with the module state threaded explicitly: the source
forward only reads self (weights, buffers, config) and assigns nothing to it,
so the call returns the state unchanged. -/
def SiglipVisionModel.forwardCall [Field α] (m : SiglipVisionModel α)
    (ops : ScalarOps α) (pixel_values : Tensor4 α) :
    Except TorchError (Tensor3 α) × SiglipVisionModel α :=
  (m.forward ops pixel_values, m)

/-! ## Claims about the configuration registry -/

/-- C8: get_dtype resolves 'float16', 'float', 'float32' and 'bfloat16' to
their torch dtypes through the fixed table and returns None, without raising,
for every other dtype string. -/
theorem gemmaConfig_get_dtype_mapping (c : GemmaConfig) :
    (c.dtype = "float16" → c.get_dtype = some TorchDtype.float16) ∧
    (c.dtype = "float" → c.get_dtype = some TorchDtype.float32) ∧
    (c.dtype = "float32" → c.get_dtype = some TorchDtype.float32) ∧
    (c.dtype = "bfloat16" → c.get_dtype = some TorchDtype.bfloat16) ∧
    (c.dtype ∉ (["float16", "float", "float32", "bfloat16"] : List String) →
      c.get_dtype = none) := by
  refine ⟨?_, ?_, ?_, ?_, ?_⟩ <;> intro h
  · simp [GemmaConfig.get_dtype, strDtypeToTorchDtype, h]
  · simp [GemmaConfig.get_dtype, strDtypeToTorchDtype, h]
  · simp [GemmaConfig.get_dtype, strDtypeToTorchDtype, h]
  · simp [GemmaConfig.get_dtype, strDtypeToTorchDtype, h]
  · simp only [List.mem_cons, List.not_mem_nil, or_false, not_or] at h
    obtain ⟨h1, h2, h3, h4⟩ := h
    simp [GemmaConfig.get_dtype, strDtypeToTorchDtype, h1, h2, h3, h4]

/-- Witness for C8: a config with dtype 'float16' resolves to float16 and a
config with an unrecognized dtype string resolves to None. -/
theorem gemmaConfig_get_dtype_mapping_witness :
    (get_config_for_7b "float16").get_dtype = some TorchDtype.float16 ∧
    (get_config_for_7b "floatX").get_dtype = none :=
  ⟨(gemmaConfig_get_dtype_mapping (get_config_for_7b "float16")).1 rfl,
    (gemmaConfig_get_dtype_mapping (get_config_for_7b "floatX")).2.2.2.2
      (by decide)⟩

/-- C2: for a variant outside the nine registered names, get_model_config
raises a ValueError whose message names the offending variant and contains
every one of the nine valid names; for each registered name it returns a
configuration without raising. -/
theorem get_model_config_invalid_variant_spec (variant dtype : String) :
    (variant ∉ validVariants →
      get_model_config variant dtype =
        Except.error
          ("Invalid variant " ++ variant ++ invalidVariantMessageTail) ∧
      substringOf variant
        ("Invalid variant " ++ variant ++ invalidVariantMessageTail) ∧
      ∀ name ∈ validVariants,
        substringOf name
          ("Invalid variant " ++ variant ++ invalidVariantMessageTail)) ∧
    (variant ∈ validVariants →
      ∃ cfg, get_model_config variant dtype = Except.ok cfg) := by
  constructor
  · intro h
    simp only [validVariants, List.mem_cons, List.not_mem_nil, or_false,
      not_or] at h
    obtain ⟨h1b, h2b, h2bv2, h4b, h7b, h9b, h12b, h27b, h27bv3⟩ := h
    refine ⟨?_, ⟨"Invalid variant ", invalidVariantMessageTail, rfl⟩, ?_⟩
    · simp [get_model_config, h1b, h2b, h2bv2, h4b, h7b, h9b, h12b, h27b,
        h27bv3]
    · intro name hname
      have hsplit : substringOf name invalidVariantMessageTail := by
        simp only [validVariants, List.mem_cons, List.not_mem_nil,
          or_false] at hname
        rcases hname with h | h | h | h | h | h | h | h | h <;> subst h
        · exact ⟨". Supported variants are \"",
            "\", \"2b\", \"2b-v2\", \"4b\",, \"7b\", \"9b\" \"12b\", \"27b\", and \"27b_v3\".",
            by decide⟩
        · exact ⟨". Supported variants are \"1b\", \"",
            "\", \"2b-v2\", \"4b\",, \"7b\", \"9b\" \"12b\", \"27b\", and \"27b_v3\".",
            by decide⟩
        · exact ⟨". Supported variants are \"1b\", \"2b\", \"",
            "\", \"4b\",, \"7b\", \"9b\" \"12b\", \"27b\", and \"27b_v3\".",
            by decide⟩
        · exact ⟨". Supported variants are \"1b\", \"2b\", \"2b-v2\", \"",
            "\",, \"7b\", \"9b\" \"12b\", \"27b\", and \"27b_v3\".",
            by decide⟩
        · exact ⟨". Supported variants are \"1b\", \"2b\", \"2b-v2\", \"4b\",, \"",
            "\", \"9b\" \"12b\", \"27b\", and \"27b_v3\".", by decide⟩
        · exact ⟨". Supported variants are \"1b\", \"2b\", \"2b-v2\", \"4b\",, \"7b\", \"",
            "\" \"12b\", \"27b\", and \"27b_v3\".", by decide⟩
        · exact ⟨". Supported variants are \"1b\", \"2b\", \"2b-v2\", \"4b\",, \"7b\", \"9b\" \"",
            "\", \"27b\", and \"27b_v3\".", by decide⟩
        · exact ⟨". Supported variants are \"1b\", \"2b\", \"2b-v2\", \"4b\",, \"7b\", \"9b\" \"12b\", \"",
            "\", and \"27b_v3\".", by decide⟩
        · exact ⟨". Supported variants are \"1b\", \"2b\", \"2b-v2\", \"4b\",, \"7b\", \"9b\" \"12b\", \"27b\", and \"",
            "\".", by decide⟩
      exact substringOf_append_left ("Invalid variant " ++ variant) hsplit
  · intro h
    simp only [validVariants, List.mem_cons, List.not_mem_nil, or_false] at h
    rcases h with h | h | h | h | h | h | h | h | h <;> subst h
    · exact ⟨get_config_for_1b dtype, rfl⟩
    · exact ⟨get_config_for_2b dtype, rfl⟩
    · exact ⟨get_config_for_2b_v2 dtype, rfl⟩
    · exact ⟨get_config_for_4b dtype, rfl⟩
    · exact ⟨get_config_for_7b dtype, rfl⟩
    · exact ⟨get_config_for_9b dtype, rfl⟩
    · exact ⟨get_config_for_12b dtype, rfl⟩
    · exact ⟨get_config_for_27b dtype, rfl⟩
    · exact ⟨get_config_for_27b_v3 dtype, rfl⟩

/-- Witness for C2: the unregistered variant '3b' raises the enumerating
ValueError. -/
theorem get_model_config_invalid_variant_spec_witness :
    "3b" ∉ validVariants ∧
    (get_model_config "3b" "bfloat16" =
        Except.error
          ("Invalid variant " ++ "3b" ++ invalidVariantMessageTail) ∧
      substringOf "3b"
        ("Invalid variant " ++ "3b" ++ invalidVariantMessageTail) ∧
      ∀ name ∈ validVariants,
        substringOf name
          ("Invalid variant " ++ "3b" ++ invalidVariantMessageTail)) :=
  ⟨by decide,
    (get_model_config_invalid_variant_spec "3b" "bfloat16").1 (by decide)⟩

/-- C9: for every registered variant and dtype, a LOCAL_SLIDING entry in the
attention-type schedule implies a non-null sliding_window_size. -/
theorem get_model_config_local_sliding_window (variant : String)
    (hv : variant ∈ validVariants) (dtype : String) (cfg : GemmaConfig)
    (hcfg : get_model_config variant dtype = Except.ok cfg)
    (l : List AttentionType) (hl : cfg.attn_types = some l)
    (_hls : AttentionType.LOCAL_SLIDING ∈ l) :
    cfg.sliding_window_size ≠ none := by
  fin_cases hv <;>
    simp only [get_model_config, String.reduceEq, reduceIte,
      Except.ok.injEq] at hcfg <;>
    subst hcfg <;>
    simp_all [get_config_for_1b, get_config_for_2b, get_config_for_2b_v2,
      get_config_for_4b, get_config_for_7b, get_config_for_9b,
      get_config_for_12b, get_config_for_27b, get_config_for_27b_v3]

/-- Witness for C9: the 2b-v2 configuration has LOCAL_SLIDING layers and a
set sliding window. -/
theorem get_model_config_local_sliding_window_witness :
    (get_config_for_2b_v2 "bfloat16").sliding_window_size ≠ none :=
  get_model_config_local_sliding_window "2b-v2" (by decide) "bfloat16"
    (get_config_for_2b_v2 "bfloat16") rfl
    (List.flatten (List.replicate 13
      [AttentionType.LOCAL_SLIDING, AttentionType.GLOBAL])) rfl (by decide)

/-- Counterexample to C1 as stated: the registered variant '1b' yields a
configuration whose attention-type schedule is present with length 6 while
num_hidden_layers is 26. -/
theorem get_model_config_1b_attn_types_length_counterexample :
    ¬ ∀ variant ∈ validVariants, ∀ (dtype : String) (cfg : GemmaConfig),
        get_model_config variant dtype = Except.ok cfg →
        ∀ l, cfg.attn_types = some l → l.length = cfg.num_hidden_layers := by
  intro h
  have h6 := h "1b" (by decide) "bfloat16" (get_config_for_1b "bfloat16") rfl
    [AttentionType.LOCAL_SLIDING, AttentionType.LOCAL_SLIDING,
      AttentionType.LOCAL_SLIDING, AttentionType.LOCAL_SLIDING,
      AttentionType.LOCAL_SLIDING, AttentionType.GLOBAL] rfl
  exact absurd h6 (by decide)

/-- C1 amended: for every registered variant and dtype, whenever the
attention-type schedule is present, its length equals num_hidden_layers for
the non-Gemma-3 architectures, while for the Gemma-3 architectures it is the
repeating pattern of length 6, strictly shorter than num_hidden_layers. -/
theorem get_model_config_attn_types_length_amended (variant dtype : String)
    (hv : variant ∈ validVariants) (cfg : GemmaConfig)
    (hcfg : get_model_config variant dtype = Except.ok cfg)
    (l : List AttentionType) (hl : cfg.attn_types = some l) :
    (cfg.architecture ≠ Architecture.GEMMA_3 →
      l.length = cfg.num_hidden_layers) ∧
    (cfg.architecture = Architecture.GEMMA_3 →
      l.length = 6 ∧ l.length < cfg.num_hidden_layers) := by
  fin_cases hv <;>
    simp only [get_model_config, String.reduceEq, reduceIte,
      Except.ok.injEq] at hcfg <;>
  subst hcfg <;>
    simp only [get_config_for_1b, get_config_for_2b, get_config_for_2b_v2,
      get_config_for_4b, get_config_for_7b, get_config_for_9b,
      get_config_for_12b, get_config_for_27b, get_config_for_27b_v3,
      Option.some.injEq, reduceCtorEq] at hl <;>
  first
    | exact hl.elim
    | (subst hl
       refine ⟨fun harch => ?_, fun harch => ?_⟩ <;>
         simp_all [get_config_for_1b, get_config_for_2b, get_config_for_2b_v2,
           get_config_for_4b, get_config_for_7b, get_config_for_9b,
           get_config_for_12b, get_config_for_27b, get_config_for_27b_v3])

/-- Witness for C1 amended: the 4b variant is Gemma 3 and its schedule has
length 6, below its 34 hidden layers. -/
theorem get_model_config_attn_types_length_amended_witness :
    ((get_config_for_4b "bfloat16").architecture ≠ Architecture.GEMMA_3 →
      (List.length [AttentionType.LOCAL_SLIDING, AttentionType.LOCAL_SLIDING,
        AttentionType.LOCAL_SLIDING, AttentionType.LOCAL_SLIDING,
        AttentionType.LOCAL_SLIDING, AttentionType.GLOBAL]) =
        (get_config_for_4b "bfloat16").num_hidden_layers) ∧
    ((get_config_for_4b "bfloat16").architecture = Architecture.GEMMA_3 →
      (List.length [AttentionType.LOCAL_SLIDING, AttentionType.LOCAL_SLIDING,
        AttentionType.LOCAL_SLIDING, AttentionType.LOCAL_SLIDING,
        AttentionType.LOCAL_SLIDING, AttentionType.GLOBAL]) = 6 ∧
      (List.length [AttentionType.LOCAL_SLIDING, AttentionType.LOCAL_SLIDING,
        AttentionType.LOCAL_SLIDING, AttentionType.LOCAL_SLIDING,
        AttentionType.LOCAL_SLIDING, AttentionType.GLOBAL]) <
        (get_config_for_4b "bfloat16").num_hidden_layers) :=
  get_model_config_attn_types_length_amended "4b" "bfloat16" (by decide)
    (get_config_for_4b "bfloat16") rfl
    [AttentionType.LOCAL_SLIDING, AttentionType.LOCAL_SLIDING,
      AttentionType.LOCAL_SLIDING, AttentionType.LOCAL_SLIDING,
      AttentionType.LOCAL_SLIDING, AttentionType.GLOBAL] rfl

/-! ## Claims about AveragePool2D -/

theorem avgpool_error_of_not_square [Field α] (m : AveragePool2D)
    (x : Tensor3 α) (h : Nat.sqrt x.seq * Nat.sqrt x.seq ≠ x.seq) :
    m.forward x =
      Except.error (TorchError.valueError (invalidShapeMessage x.seq)) := by
  simp only [AveragePool2D.forward]
  rw [if_pos h]

theorem avgpool_no_valueError_of_square [Field α] (m : AveragePool2D)
    (x : Tensor3 α) (h : Nat.sqrt x.seq * Nat.sqrt x.seq = x.seq)
    (msg : String) :
    m.forward x ≠ Except.error (TorchError.valueError msg) := by
  simp only [AveragePool2D.forward]
  rw [if_neg (not_not_intro h)]
  split <;> simp

/-- C3: AveragePool2D.forward raises the invalid-shape ValueError exactly
when the sequence length is not a perfect square, and the message of that
error names the offending sequence length. -/
theorem averagePool2D_invalid_shape_iff [Field α] (m : AveragePool2D)
    (x : Tensor3 α) :
    ((∃ msg, m.forward x = Except.error (TorchError.valueError msg)) ↔
      ¬ ∃ s, s * s = x.seq) ∧
    (∀ msg, m.forward x = Except.error (TorchError.valueError msg) →
      msg = invalidShapeMessage x.seq ∧ substringOf (toString x.seq) msg) := by
  have hiff := Nat.exists_mul_self x.seq
  by_cases h : Nat.sqrt x.seq * Nat.sqrt x.seq = x.seq
  · refine ⟨⟨fun ⟨msg, hm⟩ => absurd hm (avgpool_no_valueError_of_square m x h msg),
      fun hns => absurd (hiff.mpr h) hns⟩, fun msg hm =>
      absurd hm (avgpool_no_valueError_of_square m x h msg)⟩
  · refine ⟨⟨fun _ => fun hex => h (hiff.mp hex),
      fun _ => ⟨_, avgpool_error_of_not_square m x h⟩⟩, fun msg hm => ?_⟩
    rw [avgpool_error_of_not_square m x h] at hm
    simp only [Except.error.injEq, TorchError.valueError.injEq] at hm
    subst hm
    exact ⟨rfl, "Sequence length ",
      " is not a perfect square. Cannot reshape to a square image.", rfl⟩

/-- Witness for C3: sequence length 4097 is not a perfect square and raises
the ValueError naming 4097. -/
theorem averagePool2D_invalid_shape_iff_witness :
    (AveragePool2D.mk get_siglip_vision_model_config).forward
        (⟨1, 4097, 1, fun _ _ _ => (0 : Rat)⟩ : Tensor3 Rat) =
      Except.error (TorchError.valueError (invalidShapeMessage 4097)) ∧
    substringOf (toString (4097 : Nat)) (invalidShapeMessage 4097) := by
  have h := (averagePool2D_invalid_shape_iff
    (AveragePool2D.mk get_siglip_vision_model_config)
    (⟨1, 4097, 1, fun _ _ _ => (0 : Rat)⟩ : Tensor3 Rat))
  have hns : ¬ ∃ s, s * s =
      (⟨1, 4097, 1, fun _ _ _ => (0 : Rat)⟩ : Tensor3 Rat).seq := by
    show ¬ ∃ s, s * s = 4097
    rw [Nat.exists_mul_self]
    rw [show Nat.sqrt 4097 = 64 from (Nat.eq_sqrt.mpr (by norm_num)).symm]
    norm_num
  obtain ⟨msg, hmsg⟩ := h.1.mpr hns
  obtain ⟨heq, hsub⟩ := h.2 msg hmsg
  subst heq
  exact ⟨hmsg, hsub⟩

/-- Counterexample to C10 as stated: for s = 3 (sequence length 9, a perfect
square whose side is positive and not divisible by 4) the forward pass does
raise: the torch 4x4 pooling of a 3x3 grid has a non-positive output size. -/
theorem averagePool2D_small_grid_counterexample :
    (AveragePool2D.mk get_siglip_vision_model_config).forward
        (⟨1, 9, 1, fun _ _ _ => (0 : Rat)⟩ : Tensor3 Rat) =
      Except.error (TorchError.runtimeError "Output size is too small") := by
  have h9 : Nat.sqrt 9 = 3 := (Nat.eq_sqrt.mpr (by norm_num)).symm
  simp only [AveragePool2D.forward, h9]
  rw [if_neg (by norm_num), if_pos (by norm_num)]

/-- C10 amended: for a grid side s ≥ 4 that is not divisible by 4, the
forward pass does not raise; it returns floor(s/4)² output positions, and the
output (on its in-range entries) depends only on input grid entries whose row
and column are below 4·floor(s/4) — the trailing rows and columns are
silently discarded. -/
theorem averagePool2D_non_divisible_amended [Field α] (m : AveragePool2D)
    (x : Tensor3 α) (s : Nat) (hseq : x.seq = s * s) (hs4 : 4 ≤ s)
    (_hmod : s % 4 ≠ 0) :
    ∃ y, m.forward x = Except.ok y ∧
      y.batch = x.batch ∧ y.seq = (s / 4) * (s / 4) ∧ y.chan = x.chan ∧
      (∀ x' : Tensor3 α, x'.seq = x.seq →
        (∀ b r c ch, r < 4 * (s / 4) → c < 4 * (s / 4) →
          x'.data b (r * s + c) ch = x.data b (r * s + c) ch) →
        ∃ y', m.forward x' = Except.ok y' ∧
          ∀ b p ch, p < (s / 4) * (s / 4) →
            y'.data b p ch = y.data b p ch) := by
  have hfwd : ∀ z : Tensor3 α, z.seq = s * s →
      m.forward z = Except.ok ⟨z.batch, s / 4 * (s / 4), z.chan,
        fun b p ch =>
          (∑ di ∈ Finset.range 4, ∑ dj ∈ Finset.range 4,
            z.data b ((4 * (p / (s / 4)) + di) * s + (4 * (p % (s / 4)) + dj))
              ch) / 16⟩ := by
    intro z hz
    simp only [AveragePool2D.forward, hz, Nat.sqrt_eq]
    rw [if_neg (not_not_intro rfl), if_neg (by omega)]
  refine ⟨_, hfwd x hseq, rfl, rfl, rfl, ?_⟩
  intro x' hx'seq hagree
  refine ⟨_, hfwd x' (hx'seq.trans hseq), ?_⟩
  intro b p ch hp
  have houtW : 0 < s / 4 := Nat.div_pos hs4 (by norm_num)
  have hi : p / (s / 4) < s / 4 := (Nat.div_lt_iff_lt_mul houtW).mpr hp
  have hj : p % (s / 4) < s / 4 := Nat.mod_lt _ houtW
  refine congrArg (· / 16) ?_
  refine Finset.sum_congr rfl fun di hdi => Finset.sum_congr rfl fun dj hdj => ?_
  have hdi4 := Finset.mem_range.mp hdi
  have hdj4 := Finset.mem_range.mp hdj
  exact hagree b (4 * (p / (s / 4)) + di) (4 * (p % (s / 4)) + dj) ch
    (by omega) (by omega)

/-- Witness for C10 amended: a 5x5 grid (sequence length 25) pools without
error to a single output position. -/
theorem averagePool2D_non_divisible_amended_witness :
    ((⟨1, 25, 1, fun _ _ _ => (0 : Rat)⟩ : Tensor3 Rat).seq = 5 * 5) ∧
    4 ≤ 5 ∧ 5 % 4 ≠ 0 ∧
    (∃ y, (AveragePool2D.mk get_siglip_vision_model_config).forward
        (⟨1, 25, 1, fun _ _ _ => (0 : Rat)⟩ : Tensor3 Rat) = Except.ok y ∧
      y.batch = (⟨1, 25, 1, fun _ _ _ => (0 : Rat)⟩ : Tensor3 Rat).batch ∧
      y.seq = 5 / 4 * (5 / 4) ∧
      y.chan = (⟨1, 25, 1, fun _ _ _ => (0 : Rat)⟩ : Tensor3 Rat).chan ∧
      (∀ x' : Tensor3 Rat,
        x'.seq = (⟨1, 25, 1, fun _ _ _ => (0 : Rat)⟩ : Tensor3 Rat).seq →
        (∀ b r c ch, r < 4 * (5 / 4) → c < 4 * (5 / 4) →
          x'.data b (r * 5 + c) ch =
            (⟨1, 25, 1, fun _ _ _ => (0 : Rat)⟩ : Tensor3 Rat).data
              b (r * 5 + c) ch) →
        ∃ y', (AveragePool2D.mk get_siglip_vision_model_config).forward x' =
            Except.ok y' ∧
          ∀ b p ch, p < 5 / 4 * (5 / 4) → y'.data b p ch = y.data b p ch)) :=
  ⟨rfl, by norm_num, by norm_num,
    averagePool2D_non_divisible_amended
      (AveragePool2D.mk get_siglip_vision_model_config)
      (⟨1, 25, 1, fun _ _ _ => (0 : Rat)⟩ : Tensor3 Rat) 5 rfl
      (by norm_num) (by norm_num)⟩

/-! ## Claims about the attention block, encoder block and determinism -/

/-- Concrete scalar operations over the rationals used by the witnesses: a
positive constant stands in for exp. -/
def opsQ : ScalarOps Rat := ⟨id, fun _ => 1, id, 3⟩

def zeroW2 : Nat → Nat → Rat := fun _ _ => 0

def zeroW1 : Nat → Rat := fun _ => 0

def xQ111 : Tensor3 Rat := ⟨1, 1, 1, fun _ _ _ => 0⟩

/-- C5: for any input, the attention weights form a probability distribution
over the key positions for every batch element, head and query position, and
the block's output has the input's shape. The softmax denominator is nonzero
because exp is positive and the key axis is nonempty. -/
theorem siglipAttention_softmax_sums_to_one {α : Type} [LinearOrderedField α]
    (dim num_heads head_dim : Nat)
    (kw : Nat → Nat → α) (kb : Nat → α) (qw : Nat → Nat → α) (qb : Nat → α)
    (vw : Nat → Nat → α) (vb : Nat → α) (ow : Nat → Nat → α) (ob : Nat → α)
    (ops : ScalarOps α) (x : Tensor3 α)
    (hexp : ∀ a, 0 < ops.exp a) (hseq : 0 < x.seq) (hchan : x.chan = dim) :
    (∀ b h q, ∑ k ∈ Finset.range x.seq,
      (SiglipAttention.init dim num_heads head_dim
        kw kb qw qb vw vb ow ob).attn_weights ops x b h q k = 1) ∧
    ((SiglipAttention.init dim num_heads head_dim
      kw kb qw qb vw vb ow ob).forward ops x).batch = x.batch ∧
    ((SiglipAttention.init dim num_heads head_dim
      kw kb qw qb vw vb ow ob).forward ops x).seq = x.seq ∧
    ((SiglipAttention.init dim num_heads head_dim
      kw kb qw qb vw vb ow ob).forward ops x).chan = x.chan := by
  constructor
  · intro b h q
    simp only [SiglipAttention.attn_weights]
    rw [← Finset.sum_div]
    exact div_self (ne_of_gt (Finset.sum_pos (fun j _ => hexp _)
      ⟨0, Finset.mem_range.mpr hseq⟩))
  · exact ⟨rfl, rfl, hchan.symm⟩

/-- Witness for C5: a 1-head, 1-lane attention block on a one-token input. -/
theorem siglipAttention_softmax_sums_to_one_witness :
    (∀ a : Rat, 0 < opsQ.exp a) ∧ 0 < xQ111.seq ∧ xQ111.chan = 1 ∧
    ((∀ b h q, ∑ k ∈ Finset.range xQ111.seq,
        (SiglipAttention.init 1 1 1 zeroW2 zeroW1 zeroW2 zeroW1 zeroW2 zeroW1
          zeroW2 zeroW1).attn_weights opsQ xQ111 b h q k = 1) ∧
      ((SiglipAttention.init 1 1 1 zeroW2 zeroW1 zeroW2 zeroW1 zeroW2 zeroW1
        zeroW2 zeroW1).forward opsQ xQ111).batch = xQ111.batch ∧
      ((SiglipAttention.init 1 1 1 zeroW2 zeroW1 zeroW2 zeroW1 zeroW2 zeroW1
        zeroW2 zeroW1).forward opsQ xQ111).seq = xQ111.seq ∧
      ((SiglipAttention.init 1 1 1 zeroW2 zeroW1 zeroW2 zeroW1 zeroW2 zeroW1
        zeroW2 zeroW1).forward opsQ xQ111).chan = xQ111.chan) :=
  ⟨fun _ => one_pos, Nat.one_pos, rfl,
    siglipAttention_softmax_sums_to_one 1 1 1 zeroW2 zeroW1 zeroW2 zeroW1
      zeroW2 zeroW1 zeroW2 zeroW1 opsQ xQ111 (fun _ => one_pos)
      Nat.one_pos rfl⟩

theorem tAdd_comm_of_chan [Field α] (u v : Tensor3 α)
    (hb : u.batch = v.batch) (hs : u.seq = v.seq) (hc : u.chan = v.chan) :
    tAdd u v = tAdd v u := by
  obtain ⟨ub, us, uc, ud⟩ := u
  obtain ⟨vb, vs, vc, vd⟩ := v
  simp only at hb hs hc
  subst hb; subst hs; subst hc
  simp only [tAdd]
  congr 1
  funext b s c
  exact add_comm _ _

/-- C6: the encoder block computes exactly the spec's pre-normalization
residual composition x' = x + attn(ln1(x)), x'' = x' + mlp(ln2(x')); each
residual add uses the pre-normalization input. -/
theorem siglipEncoderBlock_pre_norm_residual [Field α]
    (m : SiglipEncoderBlock α) (ops : ScalarOps α) (x : Tensor3 α)
    (h1 : m.self_attn.o_proj.out_features = x.chan)
    (h2 : m.mlp.fc2.out_features = x.chan) :
    m.forward ops x = specEncoderBlockForward m ops x := by
  simp only [SiglipEncoderBlock.forward, specEncoderBlockForward]
  rw [tAdd_comm_of_chan
    (m.self_attn.forward ops (m.layer_norm1.forward ops x)) x rfl rfl h1]
  exact tAdd_comm_of_chan
    (m.mlp.forward ops (m.layer_norm2.forward ops
      (tAdd x (m.self_attn.forward ops (m.layer_norm1.forward ops x)))))
    (tAdd x (m.self_attn.forward ops (m.layer_norm1.forward ops x)))
    rfl rfl h2

/-- A minimal vision config for the witnesses: every dimension is 1. -/
def cfgTiny : SiglipVisionModelConfig :=
  ⟨1, 1, 1, 1, 1, 1, 1, 1, 1/1000000, true, 1⟩

def blockW0 : SiglipEncoderBlockWeights Rat :=
  ⟨zeroW2, zeroW1, zeroW2, zeroW1, zeroW2, zeroW1, zeroW2, zeroW1,
    zeroW1, zeroW1, zeroW2, zeroW1, zeroW2, zeroW1, zeroW1, zeroW1⟩

/-- Witness for C6: a concrete one-dimensional encoder block agrees with the
spec composition on a concrete input. -/
theorem siglipEncoderBlock_pre_norm_residual_witness :
    (SiglipEncoderBlock.init cfgTiny blockW0).forward opsQ xQ111 =
      specEncoderBlockForward (SiglipEncoderBlock.init cfgTiny blockW0)
        opsQ xQ111 :=
  siglipEncoderBlock_pre_norm_residual (SiglipEncoderBlock.init cfgTiny blockW0)
    opsQ xQ111 rfl rfl

/-- C7: the state-threaded forward call leaves the module state unchanged and
a repeated call on the same input returns the same output: the computation
reads only the weights and the input and has no randomness or hidden mutable
state. -/
theorem siglipVisionModel_forward_deterministic [Field α]
    (m : SiglipVisionModel α) (ops : ScalarOps α) (pixel_values : Tensor4 α) :
    (m.forwardCall ops pixel_values).2 = m ∧
    ((m.forwardCall ops pixel_values).2.forwardCall ops pixel_values).1 =
      (m.forwardCall ops pixel_values).1 :=
  ⟨rfl, rfl⟩

/-! ## Claim about the vision tower forward pass -/

theorem foldl_blocks_shape [Field α] (ops : ScalarOps α) (e : Nat)
    (l : List (SiglipEncoderBlock α))
    (hl : ∀ blk ∈ l, blk.mlp.fc2.out_features = e)
    (x : Tensor3 α) (hx : x.chan = e) :
    (l.foldl (fun acc blk => blk.forward ops acc) x).batch = x.batch ∧
    (l.foldl (fun acc blk => blk.forward ops acc) x).seq = x.seq ∧
    (l.foldl (fun acc blk => blk.forward ops acc) x).chan = e := by
  induction l generalizing x with
  | nil => exact ⟨rfl, rfl, hx⟩
  | cons blk rest ih =>
    simp only [List.foldl_cons]
    have hblk : (blk.forward ops x).chan = e := hl blk (List.mem_cons_self _ _)
    have h := ih (fun b hb => hl b (List.mem_cons_of_mem _ hb))
      (blk.forward ops x) hblk
    exact ⟨h.1, h.2.1, h.2.2⟩

theorem blocks_of_init (config : SiglipVisionModelConfig)
    (w : SiglipVisionModelWeights α) :
    ∀ blk ∈ (SiglipVisionModel.init config w).encoder_blocks,
      blk.mlp.fc2.out_features = config.embedding_dim := by
  intro blk hblk
  simp only [SiglipVisionModel.init] at hblk
  obtain ⟨bw, _, rfl⟩ := List.mem_map.mp hblk
  rfl

theorem avgpool_forward_ok_4096 [Field α] (m : AveragePool2D)
    (x : Tensor3 α) (hseq : x.seq = 4096) :
    m.forward x = Except.ok ⟨x.batch, 64 / 4 * (64 / 4), x.chan,
      fun b p ch =>
        (∑ di ∈ Finset.range 4, ∑ dj ∈ Finset.range 4,
          x.data b ((4 * (p / (64 / 4)) + di) * 64 + (4 * (p % (64 / 4)) + dj))
            ch) / 16⟩ := by
  have h64 : Nat.sqrt 4096 = 64 := (Nat.eq_sqrt.mpr (by norm_num)).symm
  simp only [AveragePool2D.forward, hseq, h64]
  rw [if_neg (by norm_num), if_neg (by norm_num)]

/-- C4: for a configuration with image_size 896 and patch size 14, the
forward pass is the composition patch embedding → add broadcast position
embeddings → all encoder blocks in order → final norm → average pooling, and
on an input pixel tensor matching the config it succeeds with output shape
(batch, 256, embedding_dim); num_patches is 4096 = (896/14)². -/
theorem siglipVisionModel_forward_shape_896 [Field α]
    (config : SiglipVisionModelConfig) (w : SiglipVisionModelWeights α)
    (ops : ScalarOps α) (pixel_values : Tensor4 α)
    (himg : config.image_size = 896) (hpatch : config.conv2d_patch_size = 14)
    (_hchan : pixel_values.chan = config.input_channels)
    (_hh : pixel_values.height = config.image_size)
    (_hw : pixel_values.width = config.image_size) :
    ((SiglipVisionModel.init config w).forward ops pixel_values =
      (AveragePool2D.mk config).forward
        ((SiglipVisionModel.init config w).final_norm.forward ops
          ((SiglipVisionModel.init config w).encoder_blocks.foldl
            (fun acc blk => blk.forward ops acc)
            (tAdd ((SiglipVisionModel.init config w).patch_embed pixel_values)
              (SiglipVisionModel.init config w).position_tensor)))) ∧
    (SiglipVisionModel.init config w).num_patches = 4096 ∧
    Except.map (fun y => (y.batch, y.seq, y.chan))
        ((SiglipVisionModel.init config w).forward ops pixel_values) =
      Except.ok (pixel_values.batch, 256, config.embedding_dim) := by
  have hside : config.image_size / config.conv2d_patch_size = 64 := by
    rw [himg, hpatch]
  refine ⟨rfl, ?_, ?_⟩
  · show (config.image_size / config.conv2d_patch_size) ^ 2 = 4096
    rw [hside]
    norm_num
  · have hx2seq :
        (tAdd ((SiglipVisionModel.init config w).patch_embed pixel_values)
          (SiglipVisionModel.init config w).position_tensor).seq = 4096 := by
      show (config.image_size / config.conv2d_patch_size) *
          (config.image_size / config.conv2d_patch_size) = 4096
      rw [hside]
    have hshape := foldl_blocks_shape ops config.embedding_dim
      (SiglipVisionModel.init config w).encoder_blocks
      (blocks_of_init config w)
      (tAdd ((SiglipVisionModel.init config w).patch_embed pixel_values)
        (SiglipVisionModel.init config w).position_tensor) rfl
    have hx4seq :
        ((SiglipVisionModel.init config w).final_norm.forward ops
          ((SiglipVisionModel.init config w).encoder_blocks.foldl
            (fun acc blk => blk.forward ops acc)
            (tAdd ((SiglipVisionModel.init config w).patch_embed pixel_values)
              (SiglipVisionModel.init config w).position_tensor))).seq =
          4096 := hshape.2.1.trans hx2seq
    have hok := avgpool_forward_ok_4096 (AveragePool2D.mk config) _ hx4seq
    show Except.map (fun y => (y.batch, y.seq, y.chan))
        ((AveragePool2D.mk config).forward
          ((SiglipVisionModel.init config w).final_norm.forward ops
            ((SiglipVisionModel.init config w).encoder_blocks.foldl
              (fun acc blk => blk.forward ops acc)
              (tAdd ((SiglipVisionModel.init config w).patch_embed pixel_values)
                (SiglipVisionModel.init config w).position_tensor)))) =
      Except.ok (pixel_values.batch, 256, config.embedding_dim)
    rw [hok]
    have hb :
        ((SiglipVisionModel.init config w).final_norm.forward ops
          ((SiglipVisionModel.init config w).encoder_blocks.foldl
            (fun acc blk => blk.forward ops acc)
            (tAdd ((SiglipVisionModel.init config w).patch_embed pixel_values)
              (SiglipVisionModel.init config w).position_tensor))).batch =
          pixel_values.batch := hshape.1
    have hc :
        ((SiglipVisionModel.init config w).final_norm.forward ops
          ((SiglipVisionModel.init config w).encoder_blocks.foldl
            (fun acc blk => blk.forward ops acc)
            (tAdd ((SiglipVisionModel.init config w).patch_embed pixel_values)
              (SiglipVisionModel.init config w).position_tensor))).chan =
          config.embedding_dim := hshape.2.2
    simp only [Except.map, hb, hc]

def visionW0 : SiglipVisionModelWeights Rat :=
  ⟨fun _ _ _ _ => 0, zeroW1, zeroW2, [], zeroW1, zeroW1⟩

def pix0 : Tensor4 Rat := ⟨1, 3, 896, 896, fun _ _ _ _ => 0⟩

/-- Witness for C4: the canonical 896/14 SigLIP geometry on a concrete pixel
tensor yields 4096 patches and an ok output of 256 positions. -/
theorem siglipVisionModel_forward_shape_896_witness :
    ((SiglipVisionModel.init get_siglip_vision_model_config visionW0).forward
        opsQ pix0 =
      (AveragePool2D.mk get_siglip_vision_model_config).forward
        ((SiglipVisionModel.init get_siglip_vision_model_config
            visionW0).final_norm.forward opsQ
          ((SiglipVisionModel.init get_siglip_vision_model_config
              visionW0).encoder_blocks.foldl
            (fun acc blk => blk.forward opsQ acc)
            (tAdd ((SiglipVisionModel.init get_siglip_vision_model_config
                visionW0).patch_embed pix0)
              (SiglipVisionModel.init get_siglip_vision_model_config
                visionW0).position_tensor)))) ∧
    (SiglipVisionModel.init get_siglip_vision_model_config
      visionW0).num_patches = 4096 ∧
    Except.map (fun y => (y.batch, y.seq, y.chan))
        ((SiglipVisionModel.init get_siglip_vision_model_config
          visionW0).forward opsQ pix0) =
      Except.ok (pix0.batch, 256, get_siglip_vision_model_config.embedding_dim) :=
  siglipVisionModel_forward_shape_896 get_siglip_vision_model_config visionW0
    opsQ pix0 rfl rfl rfl rfl rfl

end Gemma
